import Mathlib

/-!
Shallow embedding of the DrawAndWalkBackend HTTP handlers
(src/functions/src/index.ts, plus the historical variant src/unnamed/part_000).

The external MongoDB document store is modelled as an explicit `Store` value
holding the three collections used by the handlers ("Ink" distance records,
"Drawings", "Teams").  Each handler becomes a pure function from the request
fields (after JSON extraction: absent-or-wrong-type fields are `Option`
`none`) and the current store to an outcome paired with the next store.
JavaScript numbers are modelled as `Rat`; Mongo ObjectId generation is
modelled by a fresh-id counter rendered as a 24-hex-character string, and
`new ObjectId s` throwing on a malformed string is modelled by the
`isValidObjectId` check.
-/

namespace DrawAndWalk

/-- Characters accepted by the 24-hex-character ObjectId string constructor. -/
def isHexChar (c : Char) : Bool :=
  (('0' ≤ c) && (c ≤ '9')) || (('a' ≤ c) && (c ≤ 'f')) || (('A' ≤ c) && (c ≤ 'F'))

/-- `new ObjectId s` succeeds exactly on 24-character hex strings; it throws
otherwise. -/
def isValidObjectId (s : String) : Bool :=
  s.length == 24 && s.data.all isHexChar

/-- JavaScript `v || fallback` on an optional string field: `undefined` and
the empty string are falsy, any other string is kept. -/
def jsStrOr (v : Option String) (fallback : String) : String :=
  match v with
  | some s => if s = "" then fallback else s
  | none => fallback

/-- One element of a drawing's `votes` array. -/
structure VoteEntry where
  voterEmail : String
  timestamp : String
deriving Repr, DecidableEq

/-- One element of a drawing's `coordinates` array. -/
structure Coordinate where
  lat : Rat
  lng : Rat
deriving Repr, DecidableEq

/-- A document of the `Drawings` collection (interface `DrawingDocument`);
`voteCount` is optional in the document schema, hence `Option`. -/
structure Drawing where
  oid : String
  email : String
  username : String
  coordinates : List Coordinate
  createdAt : String
  votes : List VoteEntry
  voteCount : Option Int
  isPublic : Bool
  teamIds : List String
deriving Repr, DecidableEq

/-- A document of the `Teams` collection (interface `TeamDocument`);
`drawingIds` is optional in the document schema — `none` models an absent
field, which is distinct from an empty array. -/
structure Team where
  oid : String
  teamName : String
  creatorEmail : String
  createdAt : String
  drawingIds : Option (List String)
deriving Repr, DecidableEq

/-- A document of the `Ink` distance collection. -/
structure InkRecord where
  email : String
  username : String
  distance : Rat
  lastUpdated : String
deriving Repr, DecidableEq

/-- The state of the external document store, plus the ObjectId generator
counter. -/
structure Store where
  ink : List InkRecord
  drawings : List Drawing
  teams : List Team
  nextId : Nat
deriving Repr

def emptyStore : Store := { ink := [], drawings := [], teams := [], nextId := 0 }

/-- Hex digit for a value `< 16`. -/
def hexDigitChar (n : Nat) : Char :=
  if n < 10 then Char.ofNat (48 + n) else Char.ofNat (87 + n)

/-- Big-endian fixed-width hex rendering. -/
def hexStringAux : Nat → Nat → List Char
  | 0, _ => []
  | k + 1, n => hexStringAux k (n / 16) ++ [hexDigitChar (n % 16)]

/-- The ObjectId the store assigns at insertion `n`, as its 24-hex-char
string form. -/
def objectIdOfNat (n : Nat) : String :=
  String.mk (hexStringAux 24 n)

/-- `collection.findOne({email})` on the `Ink` collection. -/
def findInk (ink : List InkRecord) (email : String) : Option InkRecord :=
  ink.find? (fun r => r.email == email)

/-- Replace the first record matching `email` (Mongo `updateOne` touches one
document). -/
def replaceFirstInk : List InkRecord → String → InkRecord → List InkRecord
  | [], _, _ => []
  | x :: xs, email, r =>
    if x.email == email then r :: xs else x :: replaceFirstInk xs email r

/-- `updateOne({email}, {$set: ...}, {upsert: true})`: the boolean is
`upsertedCount > 0`, i.e. whether a fresh document was inserted. -/
def upsertInk (ink : List InkRecord) (email : String) (r : InkRecord) :
    List InkRecord × Bool :=
  if ink.any (fun x => x.email == email)
  then (replaceFirstInk ink email r, false)
  else (ink ++ [r], true)

/-- Response shape of `updateDistance`; `created` models the
`upsertedCount > 0` test behind the "Record created"/"Record updated"
message. -/
structure UpdateDistanceResult where
  success : Bool
  created : Bool
  totalDistance : Rat
deriving Repr, DecidableEq

/-- The `updateDistance` handler after its input validation (`email` a
non-empty string, `distance` a number); `username`/`timestamp` are the raw
optional body fields and `now` is the server clock. -/
def updateDistance (store : Store) (email : String) (username : Option String)
    (distance : Rat) (timestamp : Option String) (now : String) :
    UpdateDistanceResult × Store :=
  let existing := findInk store.ink email
  let currentDistance := (existing.map (fun r => r.distance)).getD 0
  let newTotalDistance := currentDistance + distance
  let displayUsername :=
    jsStrOr username (jsStrOr (existing.map (fun r => r.username)) "Anonymous")
  let newRec : InkRecord :=
    { email := email, username := displayUsername,
      distance := newTotalDistance, lastUpdated := jsStrOr timestamp now }
  let upserted := upsertInk store.ink email newRec
  ({ success := true, created := upserted.2, totalDistance := newTotalDistance },
   { store with ink := upserted.1 })

/-- Mongo `$inc` on an optional numeric field: an absent field is created at
the increment amount. -/
def jsInc (v : Option Int) (n : Int) : Option Int :=
  some (v.getD 0 + n)

/-- `drawing.voteCount || 0` (also the `?? 0`-style default used when
reading): JavaScript falsiness on numbers maps `undefined` and `0` alike to
`0`, which coincides with `getD 0`. -/
def vcOf (d : Drawing) : Int := d.voteCount.getD 0

/-- The drawing document built by `saveDrawing` before insertion. -/
def mkDrawing (oid email : String) (username : Option String)
    (coordinates : List Coordinate) (timestamp : Option String) (now : String)
    (isPublic : Option Bool) (teamIds : Option (List String)) : Drawing :=
  { oid := oid
    email := email
    username := jsStrOr username "Anonymous"
    coordinates := coordinates
    createdAt := jsStrOr timestamp now
    votes := []
    voteCount := some 0
    isPublic := isPublic == some true
    teamIds := teamIds.getD [] }

/-- Mongo `$addToSet` on the optional `drawingIds` field: creates the array
when absent, appends only when the value is not already present. -/
def addToSet (l : Option (List String)) (x : String) : Option (List String) :=
  match l with
  | none => some [x]
  | some xs => if xs.contains x then some xs else some (xs ++ [x])

/-- `teamsCollection.updateOne({_id: teamId}, {$addToSet: {drawingIds}})`:
updates the first document whose id matches, a no-op when none does. -/
def addDrawingToTeam : List Team → String → String → List Team
  | [], _, _ => []
  | t :: rest, teamId, drawingId =>
    if t.oid == teamId
    then { t with drawingIds := addToSet t.drawingIds drawingId } :: rest
    else t :: addDrawingToTeam rest teamId drawingId

/-- One iteration of the per-team update loop in `saveDrawing`: the
`new ObjectId(teamId)` constructor throwing on a malformed id is caught by
the per-team try/catch, leaving the teams collection untouched. -/
def attachDrawingToTeam (teams : List Team) (teamId drawingId : String) :
    List Team :=
  if isValidObjectId teamId then addDrawingToTeam teams teamId drawingId
  else teams

/-- The `teamIds.map(...)` update loop of `saveDrawing` over every supplied
team id. -/
def attachToTeams (teams : List Team) (teamIds : List String)
    (drawingId : String) : List Team :=
  teamIds.foldl (fun ts tid => attachDrawingToTeam ts tid drawingId) teams

/-- Response shape of `saveDrawing`. -/
structure SaveDrawingResult where
  success : Bool
  drawingId : String
deriving Repr, DecidableEq

/-- The `saveDrawing` handler after its input validation (`email` a
non-empty string, `coordinates` an array).  `username`, `timestamp`,
`isPublic` and `teamIds` are the raw optional body fields (`none` when
absent or of the wrong runtime type: `isPublic === true` and
`Array.isArray(teamIds)` are the coercions applied). -/
def saveDrawing (store : Store) (email : String) (username : Option String)
    (coordinates : List Coordinate) (timestamp : Option String) (now : String)
    (isPublic : Option Bool) (teamIds : Option (List String)) :
    SaveDrawingResult × Store :=
  let oid := objectIdOfNat store.nextId
  let d := mkDrawing oid email username coordinates timestamp now isPublic teamIds
  let newTeams := attachToTeams store.teams (teamIds.getD []) oid
  ({ success := true, drawingId := oid },
   { store with
     drawings := store.drawings ++ [d]
     teams := newTeams
     nextId := store.nextId + 1 })

/-- The distinct responses `voteForDrawing` can produce: 400 for a missing
or mistyped field, 400 for a duplicate vote, 404 when the update matched no
document, 500 from the catch-all handler (any thrown store error, including
a malformed ObjectId string), and 200 on success. -/
inductive VoteOutcome where
  | invalidInput
  | duplicateVote
  | notFound
  | storeError
  | success
deriving Repr, DecidableEq

/-- The single atomic `updateOne` of `voteForDrawing`: `$push` one vote
entry and `$inc` the counter in the same document update. -/
def pushVote (d : Drawing) (voterEmail now : String) : Drawing :=
  { d with
    votes := d.votes ++ [VoteEntry.mk voterEmail now]
    voteCount := jsInc d.voteCount 1 }

/-- `updateOne({_id}, f)` on the `Drawings` collection: updates the first
matching document; the boolean is `modifiedCount > 0`. -/
def updateDrawingById : List Drawing → String → (Drawing → Drawing) →
    List Drawing × Bool
  | [], _, _ => ([], false)
  | d :: rest, oid, f =>
    if d.oid == oid then (f d :: rest, true)
    else
      let r := updateDrawingById rest oid f
      (d :: r.1, r.2)

/-- The `voteForDrawing` handler.  `drawingId` and `voterEmail` are the raw
body fields (`none` when absent or not a string); `now` is the server
clock.  A malformed `drawingId` makes `new ObjectId(drawingId)` throw inside
the first `findOne`, before any write, and the outer catch turns that into
the generic 500. -/
def voteForDrawing (store : Store) (drawingId voterEmail : Option String)
    (now : String) : VoteOutcome × Store :=
  match drawingId with
  | none => (.invalidInput, store)
  | some did =>
    if did = "" then (.invalidInput, store)
    else
      match voterEmail with
      | none => (.invalidInput, store)
      | some ve =>
        if ve = "" then (.invalidInput, store)
        else if isValidObjectId did = false then (.storeError, store)
        else
          match store.drawings.find?
              (fun d => d.oid == did && d.votes.any (fun v => v.voterEmail == ve)) with
          | some _ => (.duplicateVote, store)
          | none =>
            let r := updateDrawingById store.drawings did (fun d => pushVote d ve now)
            if r.2 then (.success, { store with drawings := r.1 })
            else (.notFound, { store with drawings := r.1 })

/-- Response shape of `createTeam`. -/
structure CreateTeamResult where
  success : Bool
  teamId : String
deriving Repr, DecidableEq

/-- The `createTeam` handler after its input validation (`teamName` and
`email` non-empty strings).  The inserted document carries only `teamName`,
`creatorEmail` and `createdAt`: no `drawingIds` field is written, which the
model records as `drawingIds := none`. -/
def createTeam (store : Store) (teamName email : String) (now : String) :
    CreateTeamResult × Store :=
  let oid := objectIdOfNat store.nextId
  let t : Team :=
    { oid := oid, teamName := teamName, creatorEmail := email,
      createdAt := now, drawingIds := none }
  ({ success := true, teamId := oid },
   { store with
     teams := store.teams ++ [t]
     nextId := store.nextId + 1 })

/-- The two accepted values of the `sortBy` query parameter. -/
inductive SortBy where
  | votes
  | date
deriving Repr, DecidableEq

/-- Descending `createdAt` as a sort relation (Mongo `{createdAt: -1}`). -/
def dateOrder (a b : Drawing) : Prop := b.createdAt ≤ a.createdAt

instance : DecidableRel dateOrder :=
  fun a b => inferInstanceAs (Decidable (b.createdAt ≤ a.createdAt))

instance : IsTotal Drawing dateOrder :=
  ⟨fun a b => le_total b.createdAt a.createdAt⟩

instance : IsTrans Drawing dateOrder :=
  ⟨fun _ _ _ hab hbc => le_trans hbc hab⟩

/-- Descending `voteCount` with ties broken by descending `createdAt`
(Mongo `{voteCount: -1, createdAt: -1}`); an absent counter reads as 0. -/
def votesOrder (a b : Drawing) : Prop :=
  vcOf b < vcOf a ∨ (vcOf a = vcOf b ∧ b.createdAt ≤ a.createdAt)

instance : DecidableRel votesOrder :=
  fun a b =>
    inferInstanceAs (Decidable (vcOf b < vcOf a ∨ (vcOf a = vcOf b ∧ b.createdAt ≤ a.createdAt)))

instance : IsTotal Drawing votesOrder := by
  constructor
  intro a b
  rcases lt_trichotomy (vcOf a) (vcOf b) with h | h | h
  · exact Or.inr (Or.inl h)
  · rcases le_total b.createdAt a.createdAt with h2 | h2
    · exact Or.inl (Or.inr ⟨h, h2⟩)
    · exact Or.inr (Or.inr ⟨h.symm, h2⟩)
  · exact Or.inl (Or.inl h)

instance : IsTrans Drawing votesOrder := by
  constructor
  intro a b c hab hbc
  rcases hab with h1 | ⟨h1, h1'⟩
  · rcases hbc with h2 | ⟨h2, _⟩
    · exact Or.inl (lt_trans h2 h1)
    · exact Or.inl (h2 ▸ h1)
  · rcases hbc with h2 | ⟨h2, h2'⟩
    · exact Or.inl (h1 ▸ h2)
    · exact Or.inr ⟨h1.trans h2, le_trans h2' h1'⟩

/-- The privacy-safe projection returned by the listing endpoints: the
owner `email` is omitted, `voteCount` defaults an absent counter to 0. -/
structure DrawingView where
  id : String
  username : String
  coordinates : List Coordinate
  createdAt : String
  voteCount : Int
deriving Repr, DecidableEq

def toDrawingView (d : Drawing) : DrawingView :=
  { id := d.oid, username := d.username, coordinates := d.coordinates,
    createdAt := d.createdAt, voteCount := vcOf d }

/-- The `getDrawingsSorted` handler of src/functions/src/index.ts after its
`sortBy` validation: `find({isPublic: true})`, sort, `limit(100)`, then the
privacy projection. -/
def getDrawingsSorted (store : Store) (sortBy : SortBy) : List DrawingView :=
  let pub := store.drawings.filter (fun d => d.isPublic)
  let sorted :=
    match sortBy with
    | .votes => List.insertionSort votesOrder pub
    | .date => List.insertionSort dateOrder pub
  (sorted.take 100).map toDrawingView

/-- The historical `getDrawingsSorted` variant of src/unnamed/part_000 after
its `sortBy` validation: `find({})` — no visibility filter — sort,
`limit(100)`, then the same privacy projection. -/
def getDrawingsSortedLegacy (store : Store) (sortBy : SortBy) :
    List DrawingView :=
  let sorted :=
    match sortBy with
    | .votes => List.insertionSort votesOrder store.drawings
    | .date => List.insertionSort dateOrder store.drawings
  (sorted.take 100).map toDrawingView

/-- The documented invariant of a drawing document: the counter equals the
length of the votes array. -/
def voteInv (d : Drawing) : Prop := d.voteCount = some (d.votes.length : Int)

instance (d : Drawing) : Decidable (voteInv d) :=
  inferInstanceAs (Decidable (d.voteCount = some (d.votes.length : Int)))

/-- Some team document with this id records this drawing id in its
`drawingIds` array (an absent array reads as empty). -/
def teamHasDrawing (teams : List Team) (tid did : String) : Bool :=
  teams.any (fun t => t.oid == tid && (t.drawingIds.getD []).contains did)

/- ------------------------------------------------------------------ -/
/- Helper lemmas                                                       -/
/- ------------------------------------------------------------------ -/

theorem isHexChar_hexDigitChar : ∀ m < 16, isHexChar (hexDigitChar m) = true := by decide

theorem hexStringAux_length : ∀ k n, (hexStringAux k n).length = k
  | 0, _ => rfl
  | k + 1, n => by
    simp [hexStringAux, hexStringAux_length k]

theorem hexStringAux_all_hex : ∀ k n, (hexStringAux k n).all isHexChar = true
  | 0, _ => rfl
  | k + 1, n => by
    simp only [hexStringAux, List.all_append, Bool.and_eq_true,
      hexStringAux_all_hex k]
    refine ⟨trivial, ?_⟩
    simp [isHexChar_hexDigitChar (n % 16) (Nat.mod_lt _ (by norm_num))]

theorem isValidObjectId_objectIdOfNat (n : Nat) :
    isValidObjectId (objectIdOfNat n) = true := by
  show ((hexStringAux 24 n).length == 24 && (hexStringAux 24 n).all isHexChar) = true
  simp [hexStringAux_length 24 n, hexStringAux_all_hex 24 n]

theorem validObjectId_ne_empty {s : String} (h : isValidObjectId s = true) :
    s ≠ "" := by
  intro he
  subst he
  simp [isValidObjectId] at h

theorem voteInv_pushVote (d : Drawing) (ve now : String) (h : voteInv d) :
    voteInv (pushVote d ve now) := by
  unfold voteInv at h ⊢
  simp [pushVote, jsInc, h]

theorem updateDrawingById_pres (P : Drawing → Prop) (f : Drawing → Drawing)
    (hf : ∀ d, P d → P (f d)) :
    ∀ (ds : List Drawing) (oid : String), (∀ d ∈ ds, P d) →
      ∀ d ∈ (updateDrawingById ds oid f).1, P d
  | [], _, _ => by simp [updateDrawingById]
  | d0 :: rest, oid, h => by
    intro d hd
    cases hc : (d0.oid == oid) with
    | true =>
      simp [updateDrawingById, hc] at hd
      rcases hd with hd | hd
      · exact hd ▸ hf d0 (h d0 (by simp))
      · exact h d (by simp [hd])
    | false =>
      simp [updateDrawingById, hc] at hd
      rcases hd with hd | hd
      · exact hd ▸ h d0 (by simp)
      · exact updateDrawingById_pres P f hf rest oid
          (fun x hx => h x (by simp [hx])) d hd

theorem voteForDrawing_pres_inv (store : Store)
    (drawingId voterEmail : Option String) (now : String)
    (hinv : ∀ d ∈ store.drawings, voteInv d) :
    ∀ d ∈ (voteForDrawing store drawingId voterEmail now).2.drawings,
      voteInv d := by
  rcases drawingId with _ | did
  · exact hinv
  rcases voterEmail with _ | ve
  · simp only [voteForDrawing]
    split
    · exact hinv
    · exact hinv
  simp only [voteForDrawing]
  split
  · exact hinv
  split
  · exact hinv
  split
  · exact hinv
  split
  · exact hinv
  split
  · exact updateDrawingById_pres voteInv _
      (fun d hd => voteInv_pushVote d ve now hd) store.drawings did hinv
  · exact updateDrawingById_pres voteInv _
      (fun d hd => voteInv_pushVote d ve now hd) store.drawings did hinv

/- ------------------------------------------------------------------ -/
/- Claim theorems                                                      -/
/- ------------------------------------------------------------------ -/

/-- C1: the invariant `voteCount = length votes` holds for every drawing at
all times: `saveDrawing` builds its document with `voteCount = 0` and
`votes = []`, and every drawing in the store after a `saveDrawing` or a
`voteForDrawing` call still satisfies the invariant whenever all drawings
satisfied it before (a successful vote appends one entry and increments the
counter by one in the same single document update). -/
theorem voteCount_eq_votes_length_invariant (store : Store)
    (hinv : ∀ d ∈ store.drawings, voteInv d)
    (email : String) (username : Option String) (coordinates : List Coordinate)
    (timestamp : Option String) (now : String) (isPublic : Option Bool)
    (teamIds : Option (List String)) (drawingId voterEmail : Option String)
    (now2 : String) :
    (mkDrawing (objectIdOfNat store.nextId) email username coordinates
        timestamp now isPublic teamIds).voteCount = some 0 ∧
    (mkDrawing (objectIdOfNat store.nextId) email username coordinates
        timestamp now isPublic teamIds).votes = [] ∧
    (∀ d ∈ (saveDrawing store email username coordinates timestamp now
        isPublic teamIds).2.drawings, voteInv d) ∧
    (∀ d ∈ (voteForDrawing store drawingId voterEmail now2).2.drawings,
        voteInv d) := by
  refine ⟨rfl, rfl, ?_,
    voteForDrawing_pres_inv store drawingId voterEmail now2 hinv⟩
  intro d hd
  simp [saveDrawing] at hd
  rcases hd with hd | hd
  · exact hinv d hd
  · subst hd
    simp [voteInv, mkDrawing]

/-- Witness for C1 at a store holding one drawing that satisfies the
invariant, with a vote that succeeds on it. -/
theorem voteCount_eq_votes_length_invariant_witness :
    (∀ d ∈ (Store.mk []
        [Drawing.mk (objectIdOfNat 0) "a@x.com" "Anonymous" [] "t0" []
          (some 0) false []] [] 1).drawings, voteInv d) ∧
    ((mkDrawing (objectIdOfNat 1) "b@x.com" none [] none "t2" none
        none).voteCount = some 0 ∧
     (mkDrawing (objectIdOfNat 1) "b@x.com" none [] none "t2" none
        none).votes = [] ∧
     (∀ d ∈ (saveDrawing (Store.mk []
        [Drawing.mk (objectIdOfNat 0) "a@x.com" "Anonymous" [] "t0" []
          (some 0) false []] [] 1) "b@x.com" none [] none "t2" none
        none).2.drawings, voteInv d) ∧
     (∀ d ∈ (voteForDrawing (Store.mk []
        [Drawing.mk (objectIdOfNat 0) "a@x.com" "Anonymous" [] "t0" []
          (some 0) false []] [] 1) (some (objectIdOfNat 0)) (some "v@x.com")
        "t1").2.drawings, voteInv d)) :=
  ⟨by decide,
   voteCount_eq_votes_length_invariant
     (Store.mk []
       [Drawing.mk (objectIdOfNat 0) "a@x.com" "Anonymous" [] "t0" []
         (some 0) false []] [] 1)
     (by decide) "b@x.com" none [] none "t2" none none
     (some (objectIdOfNat 0)) (some "v@x.com") "t1"⟩

/-- C2: a (sequential) second vote by a voter whose email already appears in
the drawing's `votes` array fails with the duplicate-vote response and
leaves the store — in particular the drawing's `voteCount` — unchanged. -/
theorem second_vote_fails_duplicate (store : Store) (d : Drawing)
    (u now : String) (hd : d ∈ store.drawings)
    (hvalid : isValidObjectId d.oid = true) (hu : u ≠ "")
    (hdup : ∃ v ∈ d.votes, v.voterEmail = u) :
    voteForDrawing store (some d.oid) (some u) now =
      (VoteOutcome.duplicateVote, store) := by
  have hne : d.oid ≠ "" := validObjectId_ne_empty hvalid
  simp only [voteForDrawing]
  rw [if_neg hne, if_neg hu, if_neg (by simp [hvalid])]
  have hsome : (store.drawings.find?
      (fun dd => dd.oid == d.oid &&
        dd.votes.any (fun v => v.voterEmail == u))).isSome := by
    apply List.find?_isSome.2
    obtain ⟨v, hv, hvu⟩ := hdup
    refine ⟨d, hd, ?_⟩
    simp only [Bool.and_eq_true, beq_self_eq_true, true_and, List.any_eq_true]
    exact ⟨v, hv, by simp [hvu]⟩
  obtain ⟨d', hfind⟩ := Option.isSome_iff_exists.mp hsome
  rw [hfind]

/-- Witness for C2: a second vote from v@x.com on a drawing already carrying
their vote is rejected as a duplicate and the store is unchanged. -/
theorem second_vote_fails_duplicate_witness :
    (Drawing.mk (objectIdOfNat 0) "a@x.com" "Anonymous" [] "t0"
        [VoteEntry.mk "v@x.com" "t1"] (some 1) false [] ∈
      (Store.mk []
        [Drawing.mk (objectIdOfNat 0) "a@x.com" "Anonymous" [] "t0"
          [VoteEntry.mk "v@x.com" "t1"] (some 1) false []] [] 1).drawings) ∧
    (∃ v ∈ (Drawing.mk (objectIdOfNat 0) "a@x.com" "Anonymous" [] "t0"
        [VoteEntry.mk "v@x.com" "t1"] (some 1) false []).votes,
      v.voterEmail = "v@x.com") ∧
    voteForDrawing
      (Store.mk []
        [Drawing.mk (objectIdOfNat 0) "a@x.com" "Anonymous" [] "t0"
          [VoteEntry.mk "v@x.com" "t1"] (some 1) false []] [] 1)
      (some (Drawing.mk (objectIdOfNat 0) "a@x.com" "Anonymous" [] "t0"
        [VoteEntry.mk "v@x.com" "t1"] (some 1) false []).oid)
      (some "v@x.com") "t2" =
      (VoteOutcome.duplicateVote,
       Store.mk []
        [Drawing.mk (objectIdOfNat 0) "a@x.com" "Anonymous" [] "t0"
          [VoteEntry.mk "v@x.com" "t1"] (some 1) false []] [] 1) :=
  ⟨by decide, by decide,
   second_vote_fails_duplicate
     (Store.mk []
       [Drawing.mk (objectIdOfNat 0) "a@x.com" "Anonymous" [] "t0"
         [VoteEntry.mk "v@x.com" "t1"] (some 1) false []] [] 1)
     (Drawing.mk (objectIdOfNat 0) "a@x.com" "Anonymous" [] "t0"
       [VoteEntry.mk "v@x.com" "t1"] (some 1) false [])
     "v@x.com" "t2" (by decide) (by decide) (by decide) (by decide)⟩

theorem findInk_none_iff (ink : List InkRecord) (email : String) :
    findInk ink email = none ↔
      ink.any (fun x => x.email == email) = false := by
  constructor
  · intro h
    rw [Bool.eq_false_iff]
    intro hany
    obtain ⟨x, hx, hxe⟩ := List.any_eq_true.mp hany
    exact absurd (List.find?_eq_none.mp h x hx) (by simp [hxe])
  · intro h
    apply List.find?_eq_none.mpr
    intro x hx hxe
    have hany : ink.any (fun x => x.email == email) = true :=
      List.any_eq_true.mpr ⟨x, hx, hxe⟩
    rw [h] at hany
    exact Bool.false_ne_true hany

/-- C3: `accumulate` returns the previously stored distance (0 when no
record exists) plus the delta and reports creation exactly when no record
existed; two sequential accumulates of `d1` then `d2` for the same email on
an empty store total `d1 + d2`, reported as created then updated. -/
theorem accumulate_totals_and_created (store : Store) (email : String)
    (he : email ≠ "") (u1 u2 : Option String) (d1 d2 : Rat)
    (t1 t2 : Option String) (n1 n2 : String) :
    ((updateDistance store email u1 d1 t1 n1).1.totalDistance =
      ((findInk store.ink email).map (fun r => r.distance)).getD 0 + d1) ∧
    ((updateDistance store email u1 d1 t1 n1).1.created = true ↔
      findInk store.ink email = none) ∧
    ((updateDistance emptyStore email u1 d1 t1 n1).1.created = true) ∧
    ((updateDistance emptyStore email u1 d1 t1 n1).1.totalDistance = d1) ∧
    ((updateDistance (updateDistance emptyStore email u1 d1 t1 n1).2 email u2
        d2 t2 n2).1.created = false) ∧
    ((updateDistance (updateDistance emptyStore email u1 d1 t1 n1).2 email u2
        d2 t2 n2).1.totalDistance = d1 + d2) := by
  refine ⟨rfl, ?_, ?_, ?_, ?_, ?_⟩
  · rw [findInk_none_iff]
    by_cases hany : store.ink.any (fun x => x.email == email) = true
    · simp [updateDistance, upsertInk, hany]
    · simp only [Bool.not_eq_true] at hany
      simp [updateDistance, upsertInk, hany]
  · simp [updateDistance, upsertInk, emptyStore, findInk]
  · simp [updateDistance, upsertInk, emptyStore, findInk]
  · simp [updateDistance, upsertInk, emptyStore, findInk]
  · simp [updateDistance, upsertInk, emptyStore, findInk, add_assoc]

/-- Witness for C3: `accumulate("a@x.com", 5)` then `accumulate("a@x.com",
3)` on the empty store yields totals 5 and 8 with created true then
false. -/
theorem accumulate_totals_and_created_witness :
    ((updateDistance emptyStore "a@x.com" none 5 none "t0").1.totalDistance =
      ((findInk emptyStore.ink "a@x.com").map (fun r => r.distance)).getD 0
        + 5) ∧
    ((updateDistance emptyStore "a@x.com" none 5 none "t0").1.created =
        true ↔ findInk emptyStore.ink "a@x.com" = none) ∧
    ((updateDistance emptyStore "a@x.com" none 5 none "t0").1.created =
        true) ∧
    ((updateDistance emptyStore "a@x.com" none 5 none "t0").1.totalDistance =
        5) ∧
    ((updateDistance (updateDistance emptyStore "a@x.com" none 5 none
        "t0").2 "a@x.com" none 3 none "t1").1.created = false) ∧
    ((updateDistance (updateDistance emptyStore "a@x.com" none 5 none
        "t0").2 "a@x.com" none 3 none "t1").1.totalDistance = 5 + 3) :=
  accumulate_totals_and_created emptyStore "a@x.com" (by decide) none none
    5 3 none none "t0" "t1"

/-- C4: the historical unfiltered listing variant, called with sort key
"date", returns views ordered by descending `createdAt`, and it considers
every drawing in the store regardless of its `isPublic` flag (whenever the
store holds at most the 100-entry cap, every drawing — public or not —
appears in the output). -/
theorem legacy_date_listing_sorted_unfiltered (store : Store) :
    List.Sorted (fun x y : DrawingView => y.createdAt ≤ x.createdAt)
      (getDrawingsSortedLegacy store SortBy.date) ∧
    (store.drawings.length ≤ 100 →
      ∀ d ∈ store.drawings,
        toDrawingView d ∈ getDrawingsSortedLegacy store SortBy.date) := by
  constructor
  · have hs : List.Sorted dateOrder
        (List.insertionSort dateOrder store.drawings) :=
      List.sorted_insertionSort dateOrder store.drawings
    have ht : List.Sorted dateOrder
        ((List.insertionSort dateOrder store.drawings).take 100) :=
      hs.sublist (List.take_sublist 100 _)
    exact ht.map toDrawingView (fun a b hab => hab)
  · intro hlen d hd
    have h1 : (List.insertionSort dateOrder store.drawings).length =
        store.drawings.length := List.length_insertionSort _ _
    have h2 : (List.insertionSort dateOrder store.drawings).take 100 =
        List.insertionSort dateOrder store.drawings :=
      List.take_of_length_le (by rw [h1]; exact hlen)
    show toDrawingView d ∈
      ((List.insertionSort dateOrder store.drawings).take 100).map
        toDrawingView
    rw [h2]
    exact List.mem_map_of_mem toDrawingView
      ((List.mem_insertionSort dateOrder).2 hd)

/-- Witness for C4 at a two-drawing store where the newer drawing is
private: both drawings appear in the date-sorted unfiltered listing. -/
theorem legacy_date_listing_sorted_unfiltered_witness :
    List.Sorted (fun x y : DrawingView => y.createdAt ≤ x.createdAt)
      (getDrawingsSortedLegacy (Store.mk []
        [Drawing.mk (objectIdOfNat 0) "a@x.com" "Anonymous" [] "t1" []
          (some 0) false [],
         Drawing.mk (objectIdOfNat 1) "b@x.com" "Anonymous" [] "t2" []
          (some 0) true []] [] 2) SortBy.date) ∧
    ((Store.mk []
        [Drawing.mk (objectIdOfNat 0) "a@x.com" "Anonymous" [] "t1" []
          (some 0) false [],
         Drawing.mk (objectIdOfNat 1) "b@x.com" "Anonymous" [] "t2" []
          (some 0) true []] [] 2).drawings.length ≤ 100 →
      ∀ d ∈ (Store.mk []
        [Drawing.mk (objectIdOfNat 0) "a@x.com" "Anonymous" [] "t1" []
          (some 0) false [],
         Drawing.mk (objectIdOfNat 1) "b@x.com" "Anonymous" [] "t2" []
          (some 0) true []] [] 2).drawings,
        toDrawingView d ∈ getDrawingsSortedLegacy (Store.mk []
          [Drawing.mk (objectIdOfNat 0) "a@x.com" "Anonymous" [] "t1" []
            (some 0) false [],
           Drawing.mk (objectIdOfNat 1) "b@x.com" "Anonymous" [] "t2" []
            (some 0) true []] [] 2) SortBy.date) :=
  legacy_date_listing_sorted_unfiltered (Store.mk []
    [Drawing.mk (objectIdOfNat 0) "a@x.com" "Anonymous" [] "t1" []
      (some 0) false [],
     Drawing.mk (objectIdOfNat 1) "b@x.com" "Anonymous" [] "t2" []
      (some 0) true []] [] 2)

/-- C5: the vote-sorted public listing returns only views of drawings with
`isPublic = true`, ordered by descending `voteCount` with ties broken by
descending `createdAt`, capped at 100 entries, and the projection is
insensitive to the owner email. -/
theorem votes_listing_public_sorted_capped (store : Store) :
    (∀ v ∈ getDrawingsSorted store SortBy.votes,
      ∃ d ∈ store.drawings, d.isPublic = true ∧ toDrawingView d = v) ∧
    List.Sorted (fun x y : DrawingView =>
      y.voteCount < x.voteCount ∨
        (x.voteCount = y.voteCount ∧ y.createdAt ≤ x.createdAt))
      (getDrawingsSorted store SortBy.votes) ∧
    (getDrawingsSorted store SortBy.votes).length ≤ 100 ∧
    (∀ (d : Drawing) (e : String),
      toDrawingView { d with email := e } = toDrawingView d) := by
  refine ⟨?_, ?_, ?_, fun d e => rfl⟩
  · intro v hv
    obtain ⟨d', hd', hveq⟩ := List.mem_map.mp hv
    have hmem : d' ∈ List.insertionSort votesOrder
        (store.drawings.filter (fun d => d.isPublic)) :=
      (List.take_sublist 100 _).subset hd'
    have hfil : d' ∈ store.drawings.filter (fun d => d.isPublic) :=
      (List.mem_insertionSort votesOrder).1 hmem
    obtain ⟨hdm, hpub⟩ := List.mem_filter.mp hfil
    exact ⟨d', hdm, hpub, hveq⟩
  · have hs : List.Sorted votesOrder (List.insertionSort votesOrder
        (store.drawings.filter (fun d => d.isPublic))) :=
      List.sorted_insertionSort votesOrder _
    have ht : List.Sorted votesOrder ((List.insertionSort votesOrder
        (store.drawings.filter (fun d => d.isPublic))).take 100) :=
      hs.sublist (List.take_sublist 100 _)
    exact ht.map toDrawingView (fun a b hab => hab)
  · show (((List.insertionSort votesOrder
        (store.drawings.filter (fun d => d.isPublic))).take 100).map
        toDrawingView).length ≤ 100
    rw [List.length_map, List.length_take]
    exact min_le_left _ _

/-- Witness for C5 at a store holding one public and one private drawing. -/
theorem votes_listing_public_sorted_capped_witness :
    (∀ v ∈ getDrawingsSorted (Store.mk []
        [Drawing.mk (objectIdOfNat 0) "a@x.com" "Anonymous" [] "t1" []
          (some 3) false [],
         Drawing.mk (objectIdOfNat 1) "b@x.com" "Anonymous" [] "t2" []
          (some 1) true []] [] 2) SortBy.votes,
      ∃ d ∈ (Store.mk []
        [Drawing.mk (objectIdOfNat 0) "a@x.com" "Anonymous" [] "t1" []
          (some 3) false [],
         Drawing.mk (objectIdOfNat 1) "b@x.com" "Anonymous" [] "t2" []
          (some 1) true []] [] 2).drawings,
        d.isPublic = true ∧ toDrawingView d = v) ∧
    List.Sorted (fun x y : DrawingView =>
      y.voteCount < x.voteCount ∨
        (x.voteCount = y.voteCount ∧ y.createdAt ≤ x.createdAt))
      (getDrawingsSorted (Store.mk []
        [Drawing.mk (objectIdOfNat 0) "a@x.com" "Anonymous" [] "t1" []
          (some 3) false [],
         Drawing.mk (objectIdOfNat 1) "b@x.com" "Anonymous" [] "t2" []
          (some 1) true []] [] 2) SortBy.votes) ∧
    (getDrawingsSorted (Store.mk []
        [Drawing.mk (objectIdOfNat 0) "a@x.com" "Anonymous" [] "t1" []
          (some 3) false [],
         Drawing.mk (objectIdOfNat 1) "b@x.com" "Anonymous" [] "t2" []
          (some 1) true []] [] 2) SortBy.votes).length ≤ 100 ∧
    (∀ (d : Drawing) (e : String),
      toDrawingView { d with email := e } = toDrawingView d) :=
  votes_listing_public_sorted_capped (Store.mk []
    [Drawing.mk (objectIdOfNat 0) "a@x.com" "Anonymous" [] "t1" []
      (some 3) false [],
     Drawing.mk (objectIdOfNat 1) "b@x.com" "Anonymous" [] "t2" []
      (some 1) true []] [] 2)

theorem addToSet_mem_self (l : Option (List String)) (x : String) :
    x ∈ (addToSet l x).getD [] := by
  rcases l with _ | xs
  · simp [addToSet]
  · simp only [addToSet]
    by_cases h : x ∈ xs
    · simp [h]
    · simp [h]

theorem addToSet_mem_mono (l : Option (List String)) (x y : String)
    (h : y ∈ l.getD []) : y ∈ (addToSet l x).getD [] := by
  rcases l with _ | xs
  · simp at h
  · simp only [Option.getD_some] at h
    simp only [addToSet]
    by_cases hc : x ∈ xs
    · simpa [hc] using h
    · simp [hc]
      exact Or.inl h

theorem teamHasDrawing_addDrawingToTeam :
    ∀ (teams : List Team) (tid did : String),
      teams.any (fun t => t.oid == tid) = true →
      teamHasDrawing (addDrawingToTeam teams tid did) tid did = true
  | [], _, _, h => by simp at h
  | t :: rest, tid, did, h => by
    cases hc : (t.oid == tid) with
    | true =>
      simp only [addDrawingToTeam, hc, if_true, teamHasDrawing,
        List.any_cons, Bool.or_eq_true]
      left
      simp [hc, addToSet_mem_self]
    | false =>
      have h' : rest.any (fun t => t.oid == tid) = true := by
        simpa [List.any_cons, hc] using h
      simp only [addDrawingToTeam, hc, Bool.false_eq_true, if_false,
        teamHasDrawing, List.any_cons, Bool.or_eq_true]
      right
      exact teamHasDrawing_addDrawingToTeam rest tid did h'

theorem teamHasDrawing_mono_add :
    ∀ (teams : List Team) (tid did x : String),
      teamHasDrawing teams x did = true →
      teamHasDrawing (addDrawingToTeam teams tid did) x did = true
  | [], _, _, _, h => by simp [teamHasDrawing] at h
  | t :: rest, tid, did, x, h => by
    have h2 : (t.oid == x && (t.drawingIds.getD []).contains did) = true ∨
        teamHasDrawing rest x did = true := by
      simpa [teamHasDrawing, List.any_cons, Bool.or_eq_true] using h
    rcases h2 with hhead | htail
    · have hh := Bool.and_eq_true _ _ ▸ hhead
      obtain ⟨hox, hcon⟩ := hh
      cases hc : (t.oid == tid) with
      | true =>
        simp only [addDrawingToTeam, hc, if_true, teamHasDrawing,
          List.any_cons, Bool.or_eq_true]
        left
        simp [hox]
        exact addToSet_mem_mono _ _ _ (by simpa using hcon)
      | false =>
        simp only [addDrawingToTeam, hc, Bool.false_eq_true, if_false,
          teamHasDrawing, List.any_cons, Bool.or_eq_true]
        left
        simp [hox]
        simpa using hcon
    · cases hc : (t.oid == tid) with
      | true =>
        simp only [addDrawingToTeam, hc, if_true, teamHasDrawing,
          List.any_cons, Bool.or_eq_true]
        right
        exact htail
      | false =>
        simp only [addDrawingToTeam, hc, Bool.false_eq_true, if_false,
          teamHasDrawing, List.any_cons, Bool.or_eq_true]
        right
        exact teamHasDrawing_mono_add rest tid did x htail

theorem teamHasDrawing_mono_attach (teams : List Team) (tid did x : String)
    (h : teamHasDrawing teams x did = true) :
    teamHasDrawing (attachDrawingToTeam teams tid did) x did = true := by
  unfold attachDrawingToTeam
  split
  · exact teamHasDrawing_mono_add teams tid did x h
  · exact h

theorem any_oid_addDrawingToTeam :
    ∀ (teams : List Team) (tid did x : String),
      (addDrawingToTeam teams tid did).any (fun t => t.oid == x) =
        teams.any (fun t => t.oid == x)
  | [], _, _, _ => rfl
  | t :: rest, tid, did, x => by
    cases hc : (t.oid == tid) with
    | true =>
      simp [addDrawingToTeam, hc, List.any_cons]
    | false =>
      simp [addDrawingToTeam, hc, List.any_cons,
        any_oid_addDrawingToTeam rest tid did x]

theorem any_oid_attach (teams : List Team) (tid did x : String) :
    (attachDrawingToTeam teams tid did).any (fun t => t.oid == x) =
      teams.any (fun t => t.oid == x) := by
  unfold attachDrawingToTeam
  split
  · exact any_oid_addDrawingToTeam teams tid did x
  · rfl

theorem teamHasDrawing_attachToTeams_mono :
    ∀ (tids : List String) (teams : List Team) (did x : String),
      teamHasDrawing teams x did = true →
      teamHasDrawing (attachToTeams teams tids did) x did = true
  | [], _, _, _, h => h
  | tid :: rest, teams, did, x, h => by
    show teamHasDrawing
      (attachToTeams (attachDrawingToTeam teams tid did) rest did) x did = true
    exact teamHasDrawing_attachToTeams_mono rest _ did x
      (teamHasDrawing_mono_attach teams tid did x h)

theorem attachToTeams_delivers :
    ∀ (tids : List String) (teams : List Team) (did x : String),
      x ∈ tids → isValidObjectId x = true →
      teams.any (fun t => t.oid == x) = true →
      teamHasDrawing (attachToTeams teams tids did) x did = true
  | [], _, _, _, hx, _, _ => absurd hx (List.not_mem_nil _)
  | tid :: rest, teams, did, x, hx, hv, hany => by
    show teamHasDrawing
      (attachToTeams (attachDrawingToTeam teams tid did) rest did) x did = true
    rcases List.mem_cons.mp hx with rfl | hx'
    · apply teamHasDrawing_attachToTeams_mono
      unfold attachDrawingToTeam
      rw [hv, if_pos rfl]
      exact teamHasDrawing_addDrawingToTeam teams x did hany
    · apply attachToTeams_delivers rest _ did x hx' hv
      rw [any_oid_attach]
      exact hany

/-- C6: team attachment is best-effort — even when one of the supplied team
ids fails (its ObjectId construction throws and is caught per team), the
drawing is still created and inserted, the call still reports success with
a valid drawing id, and every other supplied team id that is well-formed
and matches an existing team still receives the new drawing id in its
`drawingIds`. -/
theorem create_drawing_best_effort (store : Store) (email : String)
    (username : Option String) (coordinates : List Coordinate)
    (timestamp : Option String) (now : String) (isPublic : Option Bool)
    (tids : List String) (tbad : String) (hbad : tbad ∈ tids)
    (hfail : isValidObjectId tbad = false) :
    ((saveDrawing store email username coordinates timestamp now isPublic
        (some tids)).1.success = true) ∧
    (isValidObjectId (saveDrawing store email username coordinates timestamp
        now isPublic (some tids)).1.drawingId = true) ∧
    (mkDrawing (objectIdOfNat store.nextId) email username coordinates
        timestamp now isPublic (some tids) ∈
      (saveDrawing store email username coordinates timestamp now isPublic
        (some tids)).2.drawings) ∧
    (∀ tid ∈ tids, isValidObjectId tid = true →
      store.teams.any (fun t => t.oid == tid) = true →
      teamHasDrawing (saveDrawing store email username coordinates timestamp
          now isPublic (some tids)).2.teams tid
        (saveDrawing store email username coordinates timestamp now isPublic
          (some tids)).1.drawingId = true) := by
  refine ⟨rfl, isValidObjectId_objectIdOfNat _, ?_, ?_⟩
  · simp [saveDrawing]
  · intro tid htid hv hany
    exact attachToTeams_delivers tids store.teams
      (objectIdOfNat store.nextId) tid htid hv hany

/-- Witness for C6: creating a drawing attached to one existing team and
one malformed team id "zz" still succeeds, and the existing team receives
the drawing id. -/
theorem create_drawing_best_effort_witness :
    ("zz" ∈ [objectIdOfNat 5, "zz"]) ∧ (isValidObjectId "zz" = false) ∧
    ((saveDrawing (Store.mk [] []
        [Team.mk (objectIdOfNat 5) "Walkers" "a@x.com" "t0" none] 6)
        "a@x.com" none [] none "t1" none
        (some [objectIdOfNat 5, "zz"])).1.success = true) ∧
    (isValidObjectId (saveDrawing (Store.mk [] []
        [Team.mk (objectIdOfNat 5) "Walkers" "a@x.com" "t0" none] 6)
        "a@x.com" none [] none "t1" none
        (some [objectIdOfNat 5, "zz"])).1.drawingId = true) ∧
    (mkDrawing (objectIdOfNat 6) "a@x.com" none [] none "t1" none
        (some [objectIdOfNat 5, "zz"]) ∈
      (saveDrawing (Store.mk [] []
        [Team.mk (objectIdOfNat 5) "Walkers" "a@x.com" "t0" none] 6)
        "a@x.com" none [] none "t1" none
        (some [objectIdOfNat 5, "zz"])).2.drawings) ∧
    (∀ tid ∈ [objectIdOfNat 5, "zz"], isValidObjectId tid = true →
      (Store.mk [] []
        [Team.mk (objectIdOfNat 5) "Walkers" "a@x.com" "t0" none] 6).teams.any
        (fun t => t.oid == tid) = true →
      teamHasDrawing (saveDrawing (Store.mk [] []
          [Team.mk (objectIdOfNat 5) "Walkers" "a@x.com" "t0" none] 6)
          "a@x.com" none [] none "t1" none
          (some [objectIdOfNat 5, "zz"])).2.teams tid
        (saveDrawing (Store.mk [] []
          [Team.mk (objectIdOfNat 5) "Walkers" "a@x.com" "t0" none] 6)
          "a@x.com" none [] none "t1" none
          (some [objectIdOfNat 5, "zz"])).1.drawingId = true) :=
  ⟨by decide, by decide,
   create_drawing_best_effort
     (Store.mk [] [] [Team.mk (objectIdOfNat 5) "Walkers" "a@x.com" "t0" none] 6)
     "a@x.com" none [] none "t1" none [objectIdOfNat 5, "zz"] "zz"
     (by decide) (by decide)⟩

/-- C7 counterexample: saving a drawing with `teamIds = ["zz"]` stores the
malformed id "zz" verbatim in the drawing's `teamIds` field — invalid
entries are not dropped from the stored document. -/
theorem stored_teamIds_contains_invalid_entry :
    ((saveDrawing emptyStore "a@x.com" none [] none "t0" none
        (some ["zz"])).2.drawings.map (fun d => d.teamIds)) = [["zz"]] ∧
    isValidObjectId "zz" = false :=
  ⟨rfl, rfl⟩

/-- C7 amended: `saveDrawing` coerces `teamIds` to a sequence (empty when
absent or not an array) and stores the supplied entries verbatim in the
drawing document, invalid entries included; malformed ids are only skipped
during the per-team back-reference updates. -/
theorem stored_teamIds_verbatim (store : Store) (email : String)
    (username : Option String) (coordinates : List Coordinate)
    (timestamp : Option String) (now : String) (isPublic : Option Bool)
    (teamIds : Option (List String)) :
    ((saveDrawing store email username coordinates timestamp now isPublic
        teamIds).2.drawings =
      store.drawings ++ [mkDrawing (objectIdOfNat store.nextId) email
        username coordinates timestamp now isPublic teamIds]) ∧
    ((mkDrawing (objectIdOfNat store.nextId) email username coordinates
        timestamp now isPublic teamIds).teamIds = teamIds.getD []) ∧
    (∀ tid, isValidObjectId tid = false →
      attachDrawingToTeam store.teams tid (objectIdOfNat store.nextId) =
        store.teams) := by
  refine ⟨rfl, rfl, ?_⟩
  intro tid h
  unfold attachDrawingToTeam
  rw [h]
  simp

/-- Witness for the amended C7 at a concrete call carrying one malformed
team id. -/
theorem stored_teamIds_verbatim_witness :
    (((saveDrawing emptyStore "b@x.com" none [] none "t0" none
        (some ["zz"])).2.drawings =
      emptyStore.drawings ++ [mkDrawing (objectIdOfNat 0) "b@x.com" none []
        none "t0" none (some ["zz"])]) ∧
    ((mkDrawing (objectIdOfNat 0) "b@x.com" none [] none "t0" none
        (some ["zz"])).teamIds = (some ["zz"]).getD []) ∧
    (∀ tid, isValidObjectId tid = false →
      attachDrawingToTeam emptyStore.teams tid (objectIdOfNat 0) =
        emptyStore.teams)) :=
  stored_teamIds_verbatim emptyStore "b@x.com" none [] none "t0" none
    (some ["zz"])

/-- C8 counterexample: the team document inserted by `createTeam` has no
`drawingIds` field at all (`none`), which is not the empty array the claim
asserts is initialized. -/
theorem createTeam_drawingIds_field_absent :
    ((createTeam emptyStore "Walkers" "a@x.com" "t0").2.teams.map
        (fun t => t.drawingIds)) = [(none : Option (List String))] ∧
    (none : Option (List String)) ≠ some [] :=
  ⟨rfl, by decide⟩

/-- C8 amended: `createTeam` inserts a team whose `drawingIds` field is
absent; readers defaulting the absent field to the empty array therefore
observe a team created with no drawings, and `createdAt` is the server
time. -/
theorem createTeam_created_observably_empty (store : Store)
    (teamName email now : String) :
    ∃ t : Team,
      (createTeam store teamName email now).2.teams = store.teams ++ [t] ∧
      t.teamName = teamName ∧ t.creatorEmail = email ∧ t.createdAt = now ∧
      t.drawingIds = none ∧ t.drawingIds.getD [] = [] ∧
      (createTeam store teamName email now).1.success = true :=
  ⟨_, rfl, rfl, rfl, rfl, rfl, rfl, rfl⟩

/-- C9 counterexample: an accumulate call supplying the empty-string
username on the empty store writes "Anonymous", not the supplied empty
string — the request value does not win the fallback when it is "". -/
theorem empty_username_not_stored_verbatim :
    ((updateDistance emptyStore "a@x.com" (some "") 5 none "t0").2.ink.map
        (fun r => r.username)) = ["Anonymous"] ∧
    ("Anonymous" : String) ≠ "" :=
  ⟨rfl, by decide⟩

theorem findInk_append_none (ink : List InkRecord) (email : String)
    (r : InkRecord) (hr : r.email = email) (h : findInk ink email = none) :
    findInk (ink ++ [r]) email = some r := by
  unfold findInk at h ⊢
  rw [List.find?_append, h]
  simp [List.find?_cons_of_pos, hr]

theorem findInk_replaceFirst :
    ∀ (ink : List InkRecord) (email : String) (r : InkRecord),
      r.email = email →
      ink.any (fun x => x.email == email) = true →
      findInk (replaceFirstInk ink email r) email = some r
  | [], _, _, _, h => by simp at h
  | x :: xs, email, r, hr, h => by
    cases hc : (x.email == email) with
    | true =>
      simp only [replaceFirstInk, hc, if_true, findInk]
      exact List.find?_cons_of_pos _ (by simp [hr])
    | false =>
      have h' : xs.any (fun x => x.email == email) = true := by
        simpa [List.any_cons, hc] using h
      simp only [replaceFirstInk, hc, Bool.false_eq_true, if_false, findInk]
      rw [List.find?_cons_of_neg _ (by simp [hc])]
      exact findInk_replaceFirst xs email r hr h'

theorem findInk_after_update (store : Store) (email : String)
    (username : Option String) (distance : Rat) (timestamp : Option String)
    (now : String) :
    findInk (updateDistance store email username distance timestamp
        now).2.ink email =
      some { email := email
             username := jsStrOr username
               (jsStrOr ((findInk store.ink email).map (fun r => r.username))
                 "Anonymous")
             distance := ((findInk store.ink email).map
               (fun r => r.distance)).getD 0 + distance
             lastUpdated := jsStrOr timestamp now } := by
  show findInk (upsertInk store.ink email _).1 email = _
  unfold upsertInk
  by_cases h : store.ink.any (fun x => x.email == email) = true
  · rw [h]
    simp only [if_true]
    exact findInk_replaceFirst _ _ _ rfl h
  · simp only [Bool.not_eq_true] at h
    rw [h]
    simp only [Bool.false_eq_true, if_false]
    exact findInk_append_none _ _ _ rfl ((findInk_none_iff _ _).mpr h)

/-- C9 amended: the stored username follows the three-tier fallback with
JavaScript truthiness — the request value wins only when supplied and
non-empty; an absent or empty-string request value falls back to the
stored record's non-empty username, and to "Anonymous" when no record
exists. -/
theorem username_three_tier_with_truthiness (store : Store) (email : String)
    (username : Option String) (distance : Rat) (timestamp : Option String)
    (now : String) :
    (∀ u, username = some u → u ≠ "" →
      ∃ r, findInk (updateDistance store email username distance timestamp
          now).2.ink email = some r ∧ r.username = u) ∧
    ((username = none ∨ username = some "") →
      (∀ r0, findInk store.ink email = some r0 → r0.username ≠ "" →
        ∃ r, findInk (updateDistance store email username distance timestamp
            now).2.ink email = some r ∧ r.username = r0.username) ∧
      (findInk store.ink email = none →
        ∃ r, findInk (updateDistance store email username distance timestamp
            now).2.ink email = some r ∧ r.username = "Anonymous")) := by
  have hmain := findInk_after_update store email username distance timestamp now
  constructor
  · intro u hu hne
    refine ⟨_, hmain, ?_⟩
    simp [hu, jsStrOr, hne]
  · intro hu
    constructor
    · intro r0 hr0 hne
      refine ⟨_, hmain, ?_⟩
      rcases hu with hu | hu <;> simp [hu, hr0, jsStrOr, hne]
    · intro hnone
      refine ⟨_, hmain, ?_⟩
      rcases hu with hu | hu <;> simp [hu, hnone, jsStrOr]

/-- Witness for the amended C9: a supplied non-empty username "bob" is the
one stored. -/
theorem username_three_tier_with_truthiness_witness :
    ((some "bob" : Option String) = some "bob") ∧ ("bob" ≠ "") ∧
    (∃ r, findInk (updateDistance emptyStore "a@x.com" (some "bob") 5 none
        "t0").2.ink "a@x.com" = some r ∧ r.username = "bob") :=
  ⟨rfl, by decide,
   (username_three_tier_with_truthiness emptyStore "a@x.com" (some "bob") 5
      none "t0").1 "bob" rfl (by decide)⟩

/-- C10: a vote whose `drawingId` is a non-empty string that is not a
well-formed ObjectId makes the identifier construction throw inside the
duplicate-check `findOne`, before any write: the handler answers with the
generic store failure — neither not-found nor invalid-input — and the
store is unchanged. -/
theorem malformed_drawing_id_store_error (store : Store)
    (did ve now : String) (hd : did ≠ "") (hv : ve ≠ "")
    (hbad : isValidObjectId did = false) :
    voteForDrawing store (some did) (some ve) now =
      (VoteOutcome.storeError, store) := by
  simp only [voteForDrawing]
  rw [if_neg hd, if_neg hv, if_pos hbad]

/-- Witness for C10: voting with the malformed id "xyz" on a store holding
one drawing surfaces the generic store error and modifies nothing. -/
theorem malformed_drawing_id_store_error_witness :
    ("xyz" ≠ "") ∧ ("v@x.com" ≠ "") ∧ (isValidObjectId "xyz" = false) ∧
    voteForDrawing
      (Store.mk []
        [Drawing.mk (objectIdOfNat 0) "a@x.com" "Anonymous" [] "t0" []
          (some 0) false []] [] 1)
      (some "xyz") (some "v@x.com") "t1" =
      (VoteOutcome.storeError,
       Store.mk []
        [Drawing.mk (objectIdOfNat 0) "a@x.com" "Anonymous" [] "t0" []
          (some 0) false []] [] 1) :=
  ⟨by decide, by decide, by decide,
   malformed_drawing_id_store_error
     (Store.mk []
       [Drawing.mk (objectIdOfNat 0) "a@x.com" "Anonymous" [] "t0" []
         (some 0) false []] [] 1)
     "xyz" "v@x.com" "t1" (by decide) (by decide) (by decide)⟩

end DrawAndWalk
